import Mathlib

/-!
Verification development for `send_whatsapp.py`, the single program of the
`mincha-hfa15-whatsapp-poll` repository.

The script sends a WhatsApp poll or reminder through the WHAPI gateway.  We
give a shallow embedding of its pure core: the retrying HTTP sender (POST and
GET variants), the room selector, the reminder-body composer, the poll-vote
extraction from gateway JSON, the message-id validator, the dotenv line
rewriting, the holiday lookup, and the startup phase of `main`.  Network
effects are abstracted by passing the sequence of per-attempt outcomes
explicitly; the process environment and the local `.env` file are explicit
values; `sys.exit` and uncaught exceptions become constructors of result
types.  Machine arithmetic is irrelevant here (Python integers are unbounded),
so counts are `Int` and the backoff durations are `Nat`.
-/

/-- Levels of the `log` helper of `send_whatsapp.py` (`error`, `warning`,
`notice`). -/
inductive LogLevel where
  | error
  | warning
  | notice
  deriving DecidableEq, Repr

/-- JSON values, as produced by Python `json.load` / `response.json()`:
`null`, booleans, numbers, strings, arrays and objects (dicts).  Numbers are
modelled as integers, which covers every value the claims exercise. -/
inductive Json where
  | null
  | bool (b : Bool)
  | num (n : Int)
  | str (s : String)
  | arr (elems : List Json)
  | obj (fields : List (String × Json))

/-- Python truthiness of a JSON value: `None`, `False`, `0`, `""`, `[]` and
`\x7b\x7d` are falsy, everything else is truthy. -/
def truthy : Json → Bool
  | Json.null => false
  | Json.bool b => b
  | Json.num n => n != 0
  | Json.str s => s != ""
  | Json.arr xs => !xs.isEmpty
  | Json.obj fs => !fs.isEmpty

/-- Python truthiness of an optional JSON value (`None` is falsy). -/
def truthyO : Option Json → Bool
  | none => false
  | some j => truthy j

/-- Python `dict.get`: the value stored under a key of an object, `None`
otherwise.  JSON objects never repeat keys, so `find?` is exact. -/
def jget : Json → String → Option Json
  | Json.obj fs, k => (fs.find? (fun p => p.1 == k)).map (fun p => p.2)
  | _, _ => none

/-- Python `isinstance(x, dict)` for a JSON value. -/
def isDict : Json → Bool
  | Json.obj _ => true
  | _ => false

/-- Python `a or b` over optional JSON values: the first operand when it is
truthy, the second operand otherwise. -/
def pyOr (a b : Option Json) : Option Json :=
  if truthyO a then a else b

/-- Constant `MAX_RETRIES` of `send_whatsapp.py` (line 50). -/
def MAX_RETRIES : Nat := 3

/-- Constant `INITIAL_BACKOFF` of `send_whatsapp.py` (line 51), in seconds. -/
def INITIAL_BACKOFF : Nat := 2

/-- Constant `MINYAN_THRESHOLD` of `send_whatsapp.py` (line 52). -/
def MINYAN_THRESHOLD : Int := 10

/-- Room selector, `get_room_for_today` (lines 57-70).  The source computes
`"03.501" if weekday in \x7b\x7d else '06.709 (ממ"ק הצפוני)'`; the membership
test is against an empty Python dict, embedded here as the empty set. -/
def get_room_for_today (weekday : Nat) : String :=
  if weekday ∈ (∅ : Finset Nat) then "03.501" else "06.709 (ממ\"ק הצפוני)"

/-- Reminder body composer, `_build_reminder_body` (lines 376-387).  The last
branch embeds Python `MINYAN_THRESHOLD - (positive_count or 0)`: when the
count is `0` the `or` yields the literal `0`, which coincides with the count
itself. -/
def _build_reminder_body (positive_count : Option Int) (room : String) (default_body : String) : String :=
  match positive_count with
  | none => default_body
  | some c =>
    if c ≥ MINYAN_THRESHOLD then
      "יש מניין! כל מי שרוצה להצטרף יותר ממוזמן. נתראה ב-13:30, חדר " ++ room
        ++ "\n\n_ההודעה נשלחה אוטומטית_"
    else
      "חסר " ++ toString (MINYAN_THRESHOLD - (if c == 0 then 0 else c)) ++ " — " ++ default_body

/-- Default reminder text built at the top of `send_reminder` (line 270). -/
def reminderDefaultBody (room : String) : String :=
  "🔔 תזכורת: אם עוד לא עניתם לסקר - זה הזמן! נתראה ב-13:30, חדר " ++ room
    ++ "\n\n_ההודעה נשלחה אוטומטית_"

/-- C9: the `'03.501' if weekday in \x7b\x7d` branch of `get_room_for_today`
tests membership in an empty collection, so it is unreachable and the selector
returns the same room string for every weekday. -/
theorem get_room_for_today_constant :
    ∀ w : Nat, get_room_for_today w = "06.709 (ממ\"ק הצפוני)" := by
  intro w
  simp [get_room_for_today]

/-- C4: `_build_reminder_body` applies exactly one of three rules, in order:
no count gives the default text; a count at least `MINYAN_THRESHOLD = 10`
gives the quorum text; otherwise the default text is prefixed with the
shortfall `10 - count` (so count `3` yields the prefix `חסר 7`). -/
theorem build_reminder_body_three_rules :
    ∀ (room default_body : String) (c : Int),
      _build_reminder_body none room default_body = default_body ∧
      (c ≥ MINYAN_THRESHOLD →
        _build_reminder_body (some c) room default_body
          = "יש מניין! כל מי שרוצה להצטרף יותר ממוזמן. נתראה ב-13:30, חדר " ++ room
              ++ "\n\n_ההודעה נשלחה אוטומטית_") ∧
      (c < MINYAN_THRESHOLD →
        _build_reminder_body (some c) room default_body
          = "חסר " ++ toString (MINYAN_THRESHOLD - c) ++ " — " ++ default_body) := by
  intro room default_body c
  refine ⟨rfl, ?_, ?_⟩
  · intro h
    simp [_build_reminder_body, h]
  · intro h
    have hlt : ¬ (c ≥ MINYAN_THRESHOLD) := not_le.mpr h
    by_cases hc : c = 0
    · subst hc
      simp [_build_reminder_body, hlt]
    · simp [_build_reminder_body, hlt, hc]

/-- Witness for C4: at room `R`, default body `D` and count `3`, the composed
body carries the shortfall `7`. -/
theorem build_reminder_body_three_rules_witness :
    _build_reminder_body (some 3) ("R") ("D")
      = "חסר " ++ toString (MINYAN_THRESHOLD - 3) ++ " — " ++ "D" :=
  (build_reminder_body_three_rules ("R") ("D") 3).2.2 (by decide)

/-- An HTTP response as seen by the script: `ok`, `status_code`, `text`, and
the parsed body (`response.json()`); `body_json = none` models a body on
which `.json()` raises. -/
structure Response where
  ok : Bool
  status_code : Nat
  text : String
  body_json : Option Json

/-- Outcome of one HTTP attempt: the request raised a network-level exception,
or a response came back (possibly with a non-success status). -/
inductive Outcome where
  | exc
  | resp (r : Response)

/-- An attempt counts as failed when it raised or when the response is not
`ok`; this is the retry condition of both retry loops. -/
def isFailure : Outcome → Bool
  | Outcome.exc => true
  | Outcome.resp r => !r.ok

/-- Result of `send_request_with_retries`: either the successful response is
returned to the caller, or the function logs an error and calls
`sys.exit(1)`. -/
inductive SendResult where
  | success (r : Response)
  | exit1

/-- Observable behaviour of a retry loop run: its result, the argument of
every `time.sleep` call in order, and the levels of the log lines emitted. -/
structure RetryOut where
  result : SendResult
  sleeps : List Nat
  logs : List LogLevel

/-- Retry loop of `send_request_with_retries` (lines 79-99).  The list holds
the POST outcome of each successive attempt; the loop runs through it with
the current backoff.  An empty list means the attempt budget is exhausted:
the source logs an error and exits.  `rest.isEmpty` embeds the source's
`attempt < MAX_RETRIES` guard: the list is created with `MAX_RETRIES`
entries, so the tail is empty exactly on the last attempt.  Each attempt
first logs the request (notice); success adds a notice, failure a warning. -/
def retryGo : List Outcome → Nat → RetryOut
  | [], _ => { result := SendResult.exit1, sleeps := [], logs := [LogLevel.error] }
  | o :: rest, backoff =>
    match o with
    | Outcome.resp r =>
      if r.ok then
        { result := SendResult.success r, sleeps := [], logs := [LogLevel.notice, LogLevel.notice] }
      else
        let out := retryGo rest (backoff * 2)
        { result := out.result
          sleeps := (if rest.isEmpty then [] else [backoff]) ++ out.sleeps
          logs := LogLevel.notice :: LogLevel.warning :: out.logs }
    | Outcome.exc =>
        let out := retryGo rest (backoff * 2)
        { result := out.result
          sleeps := (if rest.isEmpty then [] else [backoff]) ++ out.sleeps
          logs := LogLevel.notice :: LogLevel.warning :: out.logs }

/-- `send_request_with_retries` (lines 73-99), over the list of POST outcomes
of the successive attempts; the source always runs it with
`MAX_RETRIES = 3` attempts, so the meaningful instances have
`outcomes.length = MAX_RETRIES`. -/
def send_request_with_retries (outcomes : List Outcome) : RetryOut :=
  retryGo outcomes INITIAL_BACKOFF

/-- C1: when the first `k-1` POST attempts fail and attempt `k` returns a
success response, with `k` within the budget of `MAX_RETRIES = 3` attempts,
`send_request_with_retries` returns that response and sleeps exactly `k-1`
times, the i-th sleep lasting `2 * 2 ^ (i-1)` seconds (so 2s then 4s).  Here
`fails` are the outcomes of the failed attempts (`k = fails.length + 1`) and
`rest` pads the outcome list to the attempt budget. -/
theorem send_request_with_retries_success_within_budget :
    ∀ (fails rest : List Outcome) (r : Response),
      fails.length + 1 + rest.length = MAX_RETRIES →
      (∀ o ∈ fails, isFailure o = true) →
      r.ok = true →
      (send_request_with_retries (fails ++ Outcome.resp r :: rest)).result
          = SendResult.success r ∧
      (send_request_with_retries (fails ++ Outcome.resp r :: rest)).sleeps
          = (List.range fails.length).map (fun i => INITIAL_BACKOFF * 2 ^ i) := by
  intro fails rest r hlen hfail hok
  match fails with
  | [] =>
    constructor <;> simp [send_request_with_retries, retryGo, hok]
  | [a] =>
    have ha := hfail a (by simp)
    cases a with
    | exc =>
      constructor <;>
        simp [send_request_with_retries, retryGo, hok, List.range_succ]
    | resp ra =>
      simp [isFailure] at ha
      constructor <;>
        simp [send_request_with_retries, retryGo, hok, ha, List.range_succ]
  | [a, b] =>
    have ha := hfail a (by simp)
    have hb := hfail b (by simp)
    have hrest : rest = [] := by
      simp [MAX_RETRIES] at hlen
      exact hlen
    subst hrest
    cases a with
    | exc =>
      cases b with
      | exc =>
        constructor <;>
          simp [send_request_with_retries, retryGo, hok, List.range_succ, INITIAL_BACKOFF]
      | resp rb =>
        simp [isFailure] at hb
        constructor <;>
          simp [send_request_with_retries, retryGo, hok, hb, List.range_succ, INITIAL_BACKOFF]
    | resp ra =>
      simp [isFailure] at ha
      cases b with
      | exc =>
        constructor <;>
          simp [send_request_with_retries, retryGo, hok, ha, List.range_succ, INITIAL_BACKOFF]
      | resp rb =>
        simp [isFailure] at hb
        constructor <;>
          simp [send_request_with_retries, retryGo, hok, ha, hb, List.range_succ, INITIAL_BACKOFF]
  | a :: b :: c :: tl =>
    exfalso
    simp [MAX_RETRIES] at hlen
    omega

/-- Witness for C1: one failed attempt (HTTP 500) followed by a success gives
back the success response after a single 2-second sleep. -/
theorem send_request_with_retries_success_within_budget_witness :
    (send_request_with_retries
        [Outcome.resp { ok := false, status_code := 500, text := "Error", body_json := none },
         Outcome.resp { ok := true, status_code := 200, text := "OK", body_json := none },
         Outcome.exc]).result
      = SendResult.success { ok := true, status_code := 200, text := "OK", body_json := none } ∧
    (send_request_with_retries
        [Outcome.resp { ok := false, status_code := 500, text := "Error", body_json := none },
         Outcome.resp { ok := true, status_code := 200, text := "OK", body_json := none },
         Outcome.exc]).sleeps = [2] := by
  have h := send_request_with_retries_success_within_budget
    [Outcome.resp { ok := false, status_code := 500, text := "Error", body_json := none }]
    [Outcome.exc]
    { ok := true, status_code := 200, text := "OK", body_json := none }
    (by simp [MAX_RETRIES]) (by intro o ho; simp at ho; subst ho; rfl) rfl
  exact ⟨h.1, h.2.trans (by rfl)⟩

/-- C2: when all `MAX_RETRIES = 3` POST attempts fail, `send_request_with_retries`
never hands a failure response back to its caller: it ends in `sys.exit(1)`,
and the last log line before exiting is error-level. -/
theorem send_request_with_retries_exhaustion_exits :
    ∀ outcomes : List Outcome,
      outcomes.length = MAX_RETRIES →
      (∀ o ∈ outcomes, isFailure o = true) →
      (send_request_with_retries outcomes).result = SendResult.exit1 ∧
      (send_request_with_retries outcomes).logs.getLast? = some LogLevel.error := by
  intro outcomes hlen hfail
  match outcomes with
  | [a, b, c] =>
    have ha := hfail a (by simp)
    have hb := hfail b (by simp)
    have hc := hfail c (by simp)
    cases a with
    | exc =>
      cases b with
      | exc =>
        cases c with
        | exc => constructor <;> simp [send_request_with_retries, retryGo]
        | resp rc =>
          simp [isFailure] at hc
          constructor <;> simp [send_request_with_retries, retryGo, hc]
      | resp rb =>
        simp [isFailure] at hb
        cases c with
        | exc => constructor <;> simp [send_request_with_retries, retryGo, hb]
        | resp rc =>
          simp [isFailure] at hc
          constructor <;> simp [send_request_with_retries, retryGo, hb, hc]
    | resp ra =>
      simp [isFailure] at ha
      cases b with
      | exc =>
        cases c with
        | exc => constructor <;> simp [send_request_with_retries, retryGo, ha]
        | resp rc =>
          simp [isFailure] at hc
          constructor <;> simp [send_request_with_retries, retryGo, ha, hc]
      | resp rb =>
        simp [isFailure] at hb
        cases c with
        | exc => constructor <;> simp [send_request_with_retries, retryGo, ha, hb]
        | resp rc =>
          simp [isFailure] at hc
          constructor <;> simp [send_request_with_retries, retryGo, ha, hb, hc]
  | [] => simp [MAX_RETRIES] at hlen
  | [_] => simp [MAX_RETRIES] at hlen
  | [_, _] => simp [MAX_RETRIES] at hlen
  | _ :: _ :: _ :: _ :: _ => simp [MAX_RETRIES] at hlen

/-- Witness for C2: three failing attempts (an exception, an HTTP 500, another
exception) end in `exit 1` with a final error-level log line. -/
theorem send_request_with_retries_exhaustion_exits_witness :
    (send_request_with_retries
        [Outcome.exc,
         Outcome.resp { ok := false, status_code := 500, text := "Server Error", body_json := none },
         Outcome.exc]).result = SendResult.exit1 ∧
    (send_request_with_retries
        [Outcome.exc,
         Outcome.resp { ok := false, status_code := 500, text := "Server Error", body_json := none },
         Outcome.exc]).logs.getLast? = some LogLevel.error := by
  refine send_request_with_retries_exhaustion_exits _ (by simp [MAX_RETRIES]) ?_
  intro o ho
  simp at ho
  rcases ho with h | h | h <;> subst h <;> rfl

/-- Observable behaviour of `_get_message_with_retries`: the returned value
(`None` or a response), the sleep durations, and the log levels. -/
structure GetOut where
  result : Option Response
  sleeps : List Nat
  logs : List LogLevel

/-- Retry loop of `_get_message_with_retries` (lines 140-160), over the GET
outcome of each successive attempt, carrying the current backoff and
`last_response`.  A raised request leaves `last_response` untouched; a
received response replaces it before the `ok` test.  On exhaustion the source
logs a warning and returns `last_response`; nothing on this path exits. -/
def getGo : List Outcome → Nat → Option Response → GetOut
  | [], _, last => { result := last, sleeps := [], logs := [LogLevel.warning] }
  | o :: rest, backoff, last =>
    match o with
    | Outcome.resp r =>
      if r.ok then
        { result := some r, sleeps := [], logs := [LogLevel.notice, LogLevel.notice] }
      else
        let out := getGo rest (backoff * 2) (some r)
        { result := out.result
          sleeps := (if rest.isEmpty then [] else [backoff]) ++ out.sleeps
          logs := LogLevel.notice :: LogLevel.warning :: out.logs }
    | Outcome.exc =>
        let out := getGo rest (backoff * 2) last
        { result := out.result
          sleeps := (if rest.isEmpty then [] else [backoff]) ++ out.sleeps
          logs := LogLevel.notice :: LogLevel.warning :: out.logs }

/-- `_get_message_with_retries` (lines 140-160), over the list of GET
outcomes of the successive attempts; the source runs `MAX_RETRIES = 3`
attempts starting from backoff `INITIAL_BACKOFF` and `last_response = None`. -/
def _get_message_with_retries (outcomes : List Outcome) : GetOut :=
  getGo outcomes INITIAL_BACKOFF none

/-- One folding step of `lastReceivedResponse`: a received response replaces
the accumulator, an exception leaves it. -/
def lastReceivedStep (acc : Option Response) (o : Outcome) : Option Response :=
  match o with
  | Outcome.resp r => some r
  | Outcome.exc => acc

/-- Modelled from the spec sentence of claim C3: the last response the GET
loop ever received, or `none` when every attempt raised.  This is the
specification-side description against which the code's return value is
compared. -/
def lastReceivedResponse (outcomes : List Outcome) : Option Response :=
  outcomes.foldl lastReceivedStep none

/-- Helper: on an all-failure outcome list the GET loop never returns early,
so its result is the fold of `lastReceivedStep` over the list. -/
theorem getGo_result_all_fail :
    ∀ (outs : List Outcome) (backoff : Nat) (last : Option Response),
      (∀ o ∈ outs, isFailure o = true) →
      (getGo outs backoff last).result = outs.foldl lastReceivedStep last := by
  intro outs
  induction outs with
  | nil => intro backoff last _; rfl
  | cons o rest ih =>
    intro backoff last hfail
    cases o with
    | exc =>
      simp [getGo, lastReceivedStep]
      exact ih _ _ (fun o ho => hfail o (List.mem_cons_of_mem _ ho))
    | resp r =>
      have hr := hfail (Outcome.resp r) (by simp)
      simp [isFailure] at hr
      simp [getGo, hr, lastReceivedStep]
      exact ih _ _ (fun o ho => hfail o (List.mem_cons_of_mem _ ho))

/-- Helper: folding `lastReceivedStep` over failures preserves the invariant
that the accumulator is `none` or a non-`ok` response. -/
theorem foldl_lastReceivedStep_all_fail :
    ∀ (outs : List Outcome) (last : Option Response),
      (∀ o ∈ outs, isFailure o = true) →
      (last = none ∨ ∃ r, last = some r ∧ r.ok = false) →
      (outs.foldl lastReceivedStep last = none ∨
        ∃ r, outs.foldl lastReceivedStep last = some r ∧ r.ok = false) := by
  intro outs
  induction outs with
  | nil => intro last _ hinv; exact hinv
  | cons o rest ih =>
    intro last hfail hinv
    have htail : ∀ o ∈ rest, isFailure o = true :=
      fun o ho => hfail o (List.mem_cons_of_mem _ ho)
    cases o with
    | exc =>
      simpa [lastReceivedStep] using ih last htail hinv
    | resp r =>
      have hr := hfail (Outcome.resp r) (by simp)
      simp [isFailure] at hr
      simpa [lastReceivedStep] using
        ih (some r) htail (Or.inr ⟨r, rfl, hr⟩)

/-- First step of `_extract_positive_count_from_msg` (line 347): when the
message is a dict whose `message` entry is itself a dict, descend into it. -/
def unwrapMessage (msg : Json) : Json :=
  match msg with
  | Json.obj _ =>
    match jget msg ("message") with
    | some inner => if isDict inner then inner else msg
    | none => msg
  | _ => msg

/-- Poll section selection (line 352): `msg.get("poll") or msg.get("interactive")
or msg`.  The final operand is the dict itself, so the chain never yields
Python `None`; a truthy non-dict entry is possible and is rejected by the
dict test that follows in the source. -/
def pollSectionOf (msg : Json) : Option Json :=
  pyOr (jget msg ("poll")) (pyOr (jget msg ("interactive")) (some msg))

/-- Vote count of one `results` entry (line 357): `r.get("count") or 0` - the
stored value when truthy, the literal `0` when the field is missing or falsy
(`null`, `0`, `False`, empty string or collection). -/
def countOf (r : Json) : Json :=
  match jget r ("count") with
  | some v => if truthy v then v else Json.num 0
  | none => Json.num 0

/-- Vote count of one `options` entry (line 360):
`o.get("votes") or o.get("count") or 0`. -/
def voteOf (o : Json) : Json :=
  match jget o ("votes") with
  | some v => if truthy v then v else countOf o
  | none => countOf o

/-- The vote list computed by `_extract_positive_count_from_msg` (lines
345-361), or `none` on the two `return None` guard branches (message not a
dict, poll section not a dict).  An empty or missing `results` value routes to
the `options` branch, as in the source (`results or None` is `None` for an
empty list).  When `options` is absent or falsy the comprehension runs over
`[]`.  A truthy non-list `options` value would make the source iterate a
non-list (yielding no dict entries, or raising a `TypeError` that the caller
`_parse_positive_count_from_response` turns into `None`); the empty vote list
here gives the same observable count. -/
def votesOf (msg0 : Json) : Option (List Json) :=
  match unwrapMessage msg0 with
  | Json.obj mfs =>
    match pollSectionOf (Json.obj mfs) with
    | some (Json.obj pfs) =>
      match pyOr (jget (Json.obj pfs) ("results")) none with
      | some (Json.arr rs) => some ((rs.filter (fun r => isDict r)).map countOf)
      | _ =>
        match pyOr (jget (Json.obj pfs) ("options")) none with
        | some (Json.arr os) => some ((os.filter (fun o => isDict o)).map voteOf)
        | _ => some []
    | _ => none
  | _ => none

/-- `_extract_positive_count_from_msg` (lines 345-361): the head of the vote
list when the list is reachable and non-empty (`votes[0] if votes else None`),
`None` otherwise. -/
def _extract_positive_count_from_msg (msg : Json) : Option Json :=
  match votesOf msg with
  | some (v :: _) => some v
  | _ => none

/-- `_parse_positive_count_from_response` (lines 314-342).  On a non-`ok`
response every branch only logs and leaves `result = None`; on an `ok`
response whose body fails to parse the exception handler returns `None`;
otherwise the extraction helper runs on the parsed body. -/
def _parse_positive_count_from_response (resp : Response) : Option Json :=
  if resp.ok then
    match resp.body_json with
    | some j => _extract_positive_count_from_msg j
    | none => none
  else
    none

/-- `_fetch_positive_count` (lines 364-373), over the GET outcomes of the
successive attempts (the message id only selects the URL and does not affect
the control flow modelled here): `None` when the GET helper returned `None`,
otherwise the parse of the returned response. -/
def _fetch_positive_count (outcomes : List Outcome) : Option Json :=
  match (_get_message_with_retries outcomes).result with
  | some r => _parse_positive_count_from_response r
  | none => none

/-- C3: when all `MAX_RETRIES = 3` GET attempts fail,
`_get_message_with_retries` does not exit: it returns the last response it
received (`none` when every attempt raised), the fetched positive count is
then `None`, and the reminder body falls back to the default text. -/
theorem get_message_with_retries_degrades_gracefully :
    ∀ (outcomes : List Outcome) (room default_body : String),
      outcomes.length = MAX_RETRIES →
      (∀ o ∈ outcomes, isFailure o = true) →
      (_get_message_with_retries outcomes).result = lastReceivedResponse outcomes ∧
      _fetch_positive_count outcomes = none ∧
      _build_reminder_body none room default_body = default_body := by
  intro outcomes room default_body _ hfail
  have hres : (_get_message_with_retries outcomes).result = lastReceivedResponse outcomes :=
    getGo_result_all_fail outcomes INITIAL_BACKOFF none hfail
  refine ⟨hres, ?_, rfl⟩
  have hinv := foldl_lastReceivedStep_all_fail outcomes none hfail (Or.inl rfl)
  rcases hinv with h | ⟨r, hr, hok⟩
  · simp [_fetch_positive_count, hres, lastReceivedResponse, h]
  · simp [_fetch_positive_count, hres, lastReceivedResponse, hr,
      _parse_positive_count_from_response, hok]

/-- Witness for C3: an exception, then an HTTP 500, then an exception leave
the last-received 500 response as the result, no count, and the default
reminder text. -/
theorem get_message_with_retries_degrades_gracefully_witness :
    (_get_message_with_retries
        [Outcome.exc,
         Outcome.resp { ok := false, status_code := 500, text := "Error", body_json := none },
         Outcome.exc]).result
      = lastReceivedResponse
          [Outcome.exc,
           Outcome.resp { ok := false, status_code := 500, text := "Error", body_json := none },
           Outcome.exc] ∧
    _fetch_positive_count
        [Outcome.exc,
         Outcome.resp { ok := false, status_code := 500, text := "Error", body_json := none },
         Outcome.exc] = none ∧
    _build_reminder_body none ("R") ("D") = "D" := by
  refine get_message_with_retries_degrades_gracefully _ ("R") ("D") (by simp [MAX_RETRIES]) ?_
  intro o ho
  simp at ho
  rcases ho with h | h | h <;> subst h <;> rfl

/-- C10: a successfully fetched message whose poll section has a non-empty
`results` list (or, with `results` absent, a non-empty `options` list) whose
first entry is a dict with no truthy vote count (field missing, `null`, `0`,
or otherwise falsy) makes `_extract_positive_count_from_msg` return the count
`0`, not `None` - so the reminder reads `חסר 10` instead of the default text;
`None` arises exactly when the vote list is unreachable (message or poll
section not a dict) or empty. -/
theorem extract_positive_count_zero_vs_none :
    ∀ (pfs r0fs o0fs : List (String × Json)) (rs os : List Json)
      (room default_body : String),
      (jget (Json.obj pfs) ("results") = some (Json.arr (Json.obj r0fs :: rs)) →
        (∀ v, jget (Json.obj r0fs) ("count") = some v → truthy v = false) →
        _extract_positive_count_from_msg (Json.obj [(("poll"), Json.obj pfs)])
          = some (Json.num 0)) ∧
      (jget (Json.obj pfs) ("results") = none →
        jget (Json.obj pfs) ("options") = some (Json.arr (Json.obj o0fs :: os)) →
        (∀ v, jget (Json.obj o0fs) ("votes") = some v → truthy v = false) →
        (∀ v, jget (Json.obj o0fs) ("count") = some v → truthy v = false) →
        _extract_positive_count_from_msg (Json.obj [(("poll"), Json.obj pfs)])
          = some (Json.num 0)) ∧
      _build_reminder_body (some 0) room default_body = "חסר 10 — " ++ default_body ∧
      (∀ msg, _extract_positive_count_from_msg msg = none ↔
        (votesOf msg = none ∨ votesOf msg = some [])) := by
  intro pfs r0fs o0fs rs os room default_body
  refine ⟨?_, ?_, rfl, ?_⟩
  · intro hres hcount
    cases pfs with
    | nil => simp [jget] at hres
    | cons p ps =>
      have hu : unwrapMessage (Json.obj [(("poll"), Json.obj (p :: ps))])
          = Json.obj [(("poll"), Json.obj (p :: ps))] := rfl
      have hpoll : jget (Json.obj [(("poll"), Json.obj (p :: ps))]) ("poll")
          = some (Json.obj (p :: ps)) := rfl
      have hps : pollSectionOf (Json.obj [(("poll"), Json.obj (p :: ps))])
          = some (Json.obj (p :: ps)) := by
        simp [pollSectionOf, pyOr, truthyO, hpoll, truthy]
      have hcount0 : countOf (Json.obj r0fs) = Json.num 0 := by
        rcases hjc : jget (Json.obj r0fs) ("count") with _ | v
        · simp [countOf, hjc]
        · have hv := hcount v hjc
          simp [countOf, hjc, hv]
      simp [_extract_positive_count_from_msg, votesOf, hu, hps, hres, pyOr,
        truthyO, truthy, hcount0, isDict]
  · intro hres0 hopt hvotes hcount
    cases pfs with
    | nil => simp [jget] at hopt
    | cons p ps =>
      have hu : unwrapMessage (Json.obj [(("poll"), Json.obj (p :: ps))])
          = Json.obj [(("poll"), Json.obj (p :: ps))] := rfl
      have hpoll : jget (Json.obj [(("poll"), Json.obj (p :: ps))]) ("poll")
          = some (Json.obj (p :: ps)) := rfl
      have hps : pollSectionOf (Json.obj [(("poll"), Json.obj (p :: ps))])
          = some (Json.obj (p :: ps)) := by
        simp [pollSectionOf, pyOr, truthyO, hpoll, truthy]
      have hcount0 : countOf (Json.obj o0fs) = Json.num 0 := by
        rcases hjc : jget (Json.obj o0fs) ("count") with _ | v
        · simp [countOf, hjc]
        · have hv := hcount v hjc
          simp [countOf, hjc, hv]
      have hvote0 : voteOf (Json.obj o0fs) = Json.num 0 := by
        rcases hjv : jget (Json.obj o0fs) ("votes") with _ | v
        · simp [voteOf, hjv, hcount0]
        · have hv := hvotes v hjv
          simp [voteOf, hjv, hv, hcount0]
      simp [_extract_positive_count_from_msg, votesOf, hu, hps, hres0, hopt,
        pyOr, truthyO, truthy, hvote0, isDict]
  · intro msg
    rcases hv : votesOf msg with _ | l
    · simp [_extract_positive_count_from_msg, hv]
    · cases l with
      | nil => simp [_extract_positive_count_from_msg, hv]
      | cons v vs => simp [_extract_positive_count_from_msg, hv]

/-- Witness for C10: a poll whose single `results` entry stores `count: null`
yields the extracted count `0`. -/
theorem extract_positive_count_zero_vs_none_witness :
    _extract_positive_count_from_msg
        (Json.obj [(("poll"),
          Json.obj [(("results"), Json.arr [Json.obj [(("count"), Json.null)]])])])
      = some (Json.num 0) := by
  refine (extract_positive_count_zero_vs_none
      [(("results"), Json.arr [Json.obj [(("count"), Json.null)]])]
      [(("count"), Json.null)] [] [] [] ("R") ("D")).1 rfl ?_
  intro v hv
  have h0 : jget (Json.obj [(("count"), Json.null)]) ("count") = some Json.null := rfl
  rw [h0] at hv
  injection hv with h
  subst h
  rfl

/-- Characters of the WHAPI message-id segment class `[A-Za-z0-9._]` of
`MSG_ID_PATTERN` (line 391). -/
def isIdChar (c : Char) : Bool :=
  c.isAlpha || c.isDigit || c == '.' || c == '_'

/-- Split a character list at every hyphen, the way `re.fullmatch` decomposes
a candidate against `MSG_ID_PATTERN`: since `-` is not in the segment class,
a full match splits uniquely at the hyphens. -/
def splitDash : List Char → List (List Char)
  | [] => [[]]
  | c :: rest =>
    let r := splitDash rest
    if c == '-' then [] :: r
    else
      match r with
      | seg :: segs => (c :: seg) :: segs
      | [] => [[c]]

/-- One segment of the pattern: length between `lo` and `hi` and every
character in the segment class. -/
def segOk (lo hi : Nat) (seg : List Char) : Bool :=
  decide (lo ≤ seg.length) && decide (seg.length ≤ hi) && seg.all isIdChar

/-- `_is_valid_msg_id` (lines 394-396): full match against
`^[A-Za-z0-9._]\x7b4,30\x7d-[A-Za-z0-9._]\x7b4,14\x7d(-[A-Za-z0-9._]\x7b4,10\x7d)?(-[A-Za-z0-9._]\x7b2,10\x7d)?$`.
Two segments use the two mandatory groups; three segments let the third be
either optional group; four segments use all four groups. -/
def _is_valid_msg_id (s : String) : Bool :=
  match splitDash s.data with
  | [a, b] => segOk 4 30 a && segOk 4 14 b
  | [a, b, c] => segOk 4 30 a && segOk 4 14 b && (segOk 4 10 c || segOk 2 10 c)
  | [a, b, c, d] => segOk 4 30 a && segOk 4 14 b && segOk 4 10 c && segOk 2 10 d
  | _ => false

/-- Whitespace characters removed by Python `str.strip()`. -/
def isSpaceChar (c : Char) : Bool :=
  c == ' ' || c == '\t' || c == '\n' || c == '\r' || c == '\x0b' || c == '\x0c'

/-- Python `str.strip()` on a character list: drop whitespace from both
ends. -/
def pyStrip (cs : List Char) : List Char :=
  ((cs.dropWhile isSpaceChar).reverse.dropWhile isSpaceChar).reverse

/-- Boolean prefix test on character lists (Python `str.startswith`). -/
def startsWithChars : List Char → List Char → Bool
  | [], _ => true
  | _ :: _, [] => false
  | a :: as, b :: bs => a == b && startsWithChars as bs

/-- The line test used by both `write_last_poll_id` (line 235) and
`_clear_local_last_poll_id` (line 256):
`line.strip().startswith("LAST_POLL_MESSAGE_ID=")`. -/
def isLastPollIdLine (line : String) : Bool :=
  startsWithChars ("LAST_POLL_MESSAGE_ID=".data) (pyStrip line.data)

/-- Rewrite loop of `write_last_poll_id` (lines 233-240): replace the first
`LAST_POLL_MESSAGE_ID=` line in place, or append one when no line matches. -/
def replaceOrAppendLastPollId : List String → String → List String
  | [], msg_id => ["LAST_POLL_MESSAGE_ID=" ++ msg_id]
  | l :: ls, msg_id =>
    if isLastPollIdLine l then ("LAST_POLL_MESSAGE_ID=" ++ msg_id) :: ls
    else l :: replaceOrAppendLastPollId ls msg_id

/-- Local fallback of `write_last_poll_id` (lines 229-243) at the level of
`.env` lines: an absent file becomes the single new entry, an existing file
is rewritten line by line. -/
def write_last_poll_id_lines (envFile : Option (List String)) (msg_id : String) : List String :=
  match envFile with
  | none => ["LAST_POLL_MESSAGE_ID=" ++ msg_id]
  | some lines => replaceOrAppendLastPollId lines msg_id

/-- `_clear_local_last_poll_id` (lines 250-260) on the `.env` lines: keep
exactly the lines that do not start (after stripping) with the key. -/
def _clear_local_last_poll_id (lines : List String) : List String :=
  lines.filter (fun l => !(isLastPollIdLine l))

/-- Helper: a list prefixed with itself passes the prefix test. -/
theorem startsWithChars_append_self :
    ∀ (p x : List Char), startsWithChars p (p ++ x) = true := by
  intro p
  induction p with
  | nil => intro x; rfl
  | cons a as ih => intro x; simp [startsWithChars, ih]

/-- Helper: the freshly written `LAST_POLL_MESSAGE_ID=<id>` line satisfies the
key-line test whatever the id is. -/
theorem isLastPollIdLine_entry :
    ∀ msg_id : String, isLastPollIdLine ("LAST_POLL_MESSAGE_ID=" ++ msg_id) = true := by
  intro m
  have hdata : ("LAST_POLL_MESSAGE_ID=" ++ m).data
      = "LAST_POLL_MESSAGE_ID=".data ++ m.data := String.data_append ..
  have h1 : ("LAST_POLL_MESSAGE_ID=".data).dropWhile isSpaceChar
      = "LAST_POLL_MESSAGE_ID=".data := by decide
  have h2 : ("LAST_POLL_MESSAGE_ID=".data.reverse).dropWhile isSpaceChar
      = "LAST_POLL_MESSAGE_ID=".data.reverse := by decide
  unfold isLastPollIdLine pyStrip
  rw [hdata, List.dropWhile_append, h1]
  have hne : ("LAST_POLL_MESSAGE_ID=".data ++ m.data).isEmpty = false := by
    cases hh : ("LAST_POLL_MESSAGE_ID=".data ++ m.data) with
    | nil => simp at hh
    | cons c cs => rfl
  rw [if_neg (by simp)]
  rw [List.reverse_append, List.dropWhile_append, h2]
  by_cases hmt : (m.data.reverse.dropWhile isSpaceChar).isEmpty
  · rw [if_pos (by simpa using hmt)]
    rw [List.reverse_reverse]
    have := startsWithChars_append_self ("LAST_POLL_MESSAGE_ID=".data) []
    simpa using this
  · rw [if_neg (by simpa using hmt)]
    rw [List.reverse_append, List.reverse_reverse]
    exact startsWithChars_append_self _ _

/-- C8: the `.env` rewrite of `write_last_poll_id` leaves every non-key line
unchanged and in order (replacing the first existing
`LAST_POLL_MESSAGE_ID=` line in place, appending the entry when no line
matches), and `_clear_local_last_poll_id` removes exactly the key lines,
preserving all other entries. -/
theorem env_rewrite_preserves_other_lines :
    ∀ (lines : List String) (msg_id : String),
      (replaceOrAppendLastPollId lines msg_id).filter (fun l => !(isLastPollIdLine l))
          = lines.filter (fun l => !(isLastPollIdLine l)) ∧
      ((∀ l ∈ lines, isLastPollIdLine l = false) →
        replaceOrAppendLastPollId lines msg_id
          = lines ++ [("LAST_POLL_MESSAGE_ID=" ++ msg_id)]) ∧
      (∀ (pre post : List String) (k : String),
        (∀ l ∈ pre, isLastPollIdLine l = false) →
        isLastPollIdLine k = true →
        lines = pre ++ k :: post →
        replaceOrAppendLastPollId lines msg_id
          = pre ++ ("LAST_POLL_MESSAGE_ID=" ++ msg_id) :: post) ∧
      _clear_local_last_poll_id lines
          = lines.filter (fun l => !(isLastPollIdLine l)) := by
  intro lines msg_id
  refine ⟨?_, ?_, ?_, rfl⟩
  · induction lines with
    | nil =>
      simp [replaceOrAppendLastPollId, isLastPollIdLine_entry]
    | cons l ls ih =>
      by_cases hk : isLastPollIdLine l = true
      · simp [replaceOrAppendLastPollId, hk, isLastPollIdLine_entry]
      · simp only [Bool.not_eq_true] at hk
        simp [replaceOrAppendLastPollId, hk, ih]
  · induction lines with
    | nil => intro _; rfl
    | cons l ls ih =>
      intro hall
      have hl := hall l (by simp)
      have hrec := ih (fun x hx => hall x (List.mem_cons_of_mem _ hx))
      simp [replaceOrAppendLastPollId, hl, hrec]
  · intro pre post k hpre hkey hsplit
    subst hsplit
    induction pre with
    | nil => simp [replaceOrAppendLastPollId, hkey]
    | cons p ps ih =>
      have hp := hpre p (by simp)
      have hrec := ih (fun x hx => hpre x (List.mem_cons_of_mem _ hx))
      simp [replaceOrAppendLastPollId, hp, hrec]

/-- Witness for C8: in a file with entries `A=1`, an old key line and `B=2`,
the rewrite replaces the key line in place and the clear keeps exactly the
other two entries. -/
theorem env_rewrite_preserves_other_lines_witness :
    replaceOrAppendLastPollId ["A=1", "LAST_POLL_MESSAGE_ID=old", "B=2"] ("new")
        = ["A=1"] ++ ("LAST_POLL_MESSAGE_ID=" ++ "new") :: ["B=2"] ∧
    _clear_local_last_poll_id ["A=1", "LAST_POLL_MESSAGE_ID=old", "B=2"]
        = (["A=1", "LAST_POLL_MESSAGE_ID=old", "B=2"]).filter
            (fun l => !(isLastPollIdLine l)) := by
  have h := env_rewrite_preserves_other_lines
    ["A=1", "LAST_POLL_MESSAGE_ID=old", "B=2"] ("new")
  refine ⟨h.2.2.1 ["A=1"] ["B=2"] ("LAST_POLL_MESSAGE_ID=old") ?_ (by decide) rfl,
    h.2.2.2⟩
  intro l hl
  simp at hl
  subst hl
  decide

/-- Python truthiness of an optional string (`os.environ.get` result): `None`
and the empty string are falsy. -/
def truthyOS : Option String → Bool
  | none => false
  | some s => !(s == "")

/-- Integer view of a JSON value for the `positive_count >= MINYAN_THRESHOLD`
comparison in `_build_reminder_body`: Python compares numbers (and booleans,
which are ints) with `>=`; every other type raises a `TypeError`, modelled as
`none`. -/
def pyIntOfJson : Json → Option Int
  | Json.num n => some n
  | Json.bool b => some (if b then 1 else 0)
  | _ => none

/-- Lift a fetched count (`None` or a JSON value) to the argument of
`_build_reminder_body`: the outer `none` models a `TypeError` propagating out
of `send_reminder`; `some none` is an absent count. -/
def countArg : Option Json → Option (Option Int)
  | none => some none
  | some j =>
    match pyIntOfJson j with
    | some n => some (some n)
    | none => none

/-- Observable outcome of `send_reminder` (lines 263-311): the id used for
the GET lookup if any, the reminder body, the `quoted` payload field if any,
the `.env` lines after the run, and the `LAST_POLL_MESSAGE_ID` process
variable after the run.  The final POST is the retry sender already modelled
separately. -/
structure ReminderResult where
  lookedUpId : Option String
  body : String
  quoted : Option String
  envLines : List String
  lastPollVar : Option String

/-- `send_reminder` (lines 263-311) up to the final POST, over the
environment value of `LAST_POLL_MESSAGE_ID`, the value of
`GITHUB_REPOSITORY`, the `.env` lines, and the GET outcomes.  A `none` result
models an uncaught exception (non-numeric vote value compared against the
threshold).  A falsy poll id skips validation, lookup and quoting; an invalid
id is discarded and, when `GITHUB_REPOSITORY` is falsy, also scrubbed from
`.env` and the process environment. -/
def send_reminder (room : String) (lastId ghRepo : Option String)
    (envLines : List String) (outcomes : List Outcome) : Option ReminderResult :=
  let default_body := reminderDefaultBody room
  match lastId with
  | none =>
    some { lookedUpId := none, body := _build_reminder_body none room default_body
           quoted := none, envLines := envLines, lastPollVar := none }
  | some pid =>
    if pid == "" then
      some { lookedUpId := none, body := _build_reminder_body none room default_body
             quoted := none, envLines := envLines, lastPollVar := some pid }
    else if _is_valid_msg_id pid then
      match countArg (_fetch_positive_count outcomes) with
      | none => none
      | some pc =>
        some { lookedUpId := some pid, body := _build_reminder_body pc room default_body
               quoted := some pid, envLines := envLines, lastPollVar := some pid }
    else if truthyOS ghRepo then
      some { lookedUpId := none, body := _build_reminder_body none room default_body
             quoted := none, envLines := envLines, lastPollVar := some pid }
    else
      some { lookedUpId := none, body := _build_reminder_body none room default_body
             quoted := none, envLines := _clear_local_last_poll_id envLines
             lastPollVar := none }

/-- C5: the validator accepts the documented example id and rejects
`not an id`; in `send_reminder` a persisted id failing the check is never used
for the GET lookup nor attached as a quoted reference, and when
`GITHUB_REPOSITORY` is unset (falsy) it is scrubbed from the `.env` lines and
from the process environment. -/
theorem msg_id_validation_guards_lookup :
    _is_valid_msg_id ("PsrIDamMcQrSYK8-wlMBq53kUCFYFA") = true ∧
    _is_valid_msg_id ("not an id") = false ∧
    (∀ (room pid : String) (ghRepo : Option String) (envLines : List String)
        (outcomes : List Outcome),
      pid ≠ "" →
      _is_valid_msg_id pid = false →
      send_reminder room (some pid) ghRepo envLines outcomes
        = some { lookedUpId := none
                 body := _build_reminder_body none room (reminderDefaultBody room)
                 quoted := none
                 envLines := if truthyOS ghRepo then envLines
                             else _clear_local_last_poll_id envLines
                 lastPollVar := if truthyOS ghRepo then some pid else none }) := by
  refine ⟨by decide, by decide, ?_⟩
  intro room pid ghRepo envLines outcomes hne hvalid
  have hbeq : (pid == "") = false := by
    simpa using hne
  by_cases hg : truthyOS ghRepo = true
  · simp [send_reminder, hbeq, hvalid, hg]
  · simp only [Bool.not_eq_true] at hg
    simp [send_reminder, hbeq, hvalid, hg]

/-- Witness for C5: the invalid id `not an id` with `GITHUB_REPOSITORY` unset
is not looked up, not quoted, and is scrubbed from the `.env` lines and the
environment. -/
theorem msg_id_validation_guards_lookup_witness :
    send_reminder ("R") (some ("not an id")) none
        ["A=1", "LAST_POLL_MESSAGE_ID=bad"] []
      = some { lookedUpId := none
               body := _build_reminder_body none ("R") (reminderDefaultBody ("R"))
               quoted := none
               envLines := if truthyOS none then ["A=1", "LAST_POLL_MESSAGE_ID=bad"]
                           else _clear_local_last_poll_id ["A=1", "LAST_POLL_MESSAGE_ID=bad"]
               lastPollVar := if truthyOS none then some ("not an id") else none } :=
  msg_id_validation_guards_lookup.2.2 ("R") ("not an id") none
    ["A=1", "LAST_POLL_MESSAGE_ID=bad"] [] (by decide) (by decide)

/-- `is_today_holiday` (lines 399-412), over the state of
`assets/holidays_<year>.json`: `none` is an absent file (warning, treated as
non-holiday), `some (Except.error e)` a present file on which `json.load`
raises (the `with`-block has no handler, so the exception propagates), and
`some (Except.ok m)` a parsed holiday map.  The result pairs the returned
value (or the propagating exception) with the emitted log levels. -/
def is_today_holiday (holidaysFile : Option (Except String (List (String × String))))
    (todayIso : String) : Except String (Option String) × List LogLevel :=
  match holidaysFile with
  | none => (Except.ok none, [LogLevel.warning])
  | some (Except.error e) => (Except.error e, [])
  | some (Except.ok m) =>
    (Except.ok ((m.find? (fun p => p.1 == todayIso)).map (fun p => p.2)), [])

/-- The process environment variables the startup path reads. -/
structure RunEnv where
  WHAPI_TOKEN : Option String
  WHATSAPP_GROUP_ID : Option String
  ACTION_TYPE : Option String

/-- Terminal state of the startup phase: the process exited with a code, an
exception reached the top of the run, or control was dispatched to the poll
or reminder sender. -/
inductive Phase where
  | exited (code : Nat) (logs : List LogLevel)
  | raised (msg : String) (logs : List LogLevel)
  | dispatched (action : String) (room : String) (logs : List LogLevel)

/-- Exit code of a phase, when the process exited. -/
def exitCodeOfPhase : Phase → Option Nat
  | Phase.exited c _ => some c
  | _ => none

/-- Startup path of the script: the module-level `get_env_var` calls for
`WHAPI_TOKEN` and `WHATSAPP_GROUP_ID` (lines 32-42, a missing variable logs
an error and exits 1), then `main` (lines 438-455): holiday check (a holiday
exits 0 after a notice; a raising holiday load propagates), room selection
(one notice), then `get_env_var("ACTION_TYPE")` and the
`poll`/`reminder` membership test (failure logs an error and exits 1). -/
def runStartup (env : RunEnv)
    (holidaysFile : Option (Except String (List (String × String))))
    (todayIso : String) (weekday : Nat) : Phase :=
  match env.WHAPI_TOKEN with
  | none => Phase.exited 1 [LogLevel.error]
  | some _ =>
    match env.WHATSAPP_GROUP_ID with
    | none => Phase.exited 1 [LogLevel.error]
    | some _ =>
      match is_today_holiday holidaysFile todayIso with
      | (Except.error e, lgs) => Phase.raised e lgs
      | (Except.ok (some _), lgs) => Phase.exited 0 (lgs ++ [LogLevel.notice])
      | (Except.ok none, lgs) =>
        let room := get_room_for_today weekday
        match env.ACTION_TYPE with
        | none => Phase.exited 1 (lgs ++ [LogLevel.notice, LogLevel.error])
        | some a =>
          if a == "poll" || a == "reminder" then
            Phase.dispatched a room (lgs ++ [LogLevel.notice])
          else
            Phase.exited 1 (lgs ++ [LogLevel.notice, LogLevel.error])

/-- C6: a holiday file that exists but holds malformed JSON makes
`is_today_holiday` raise, and the exception propagates through `main` to the
top of the run (given that the two module-level variables are present, which
is the only way execution reaches `main`); an absent file instead only logs a
warning and returns `None`. -/
theorem malformed_holiday_json_is_fatal :
    ∀ (t g : String) (act : Option String) (e todayIso : String) (w : Nat),
      is_today_holiday (some (Except.error e)) todayIso = (Except.error e, []) ∧
      runStartup { WHAPI_TOKEN := some t, WHATSAPP_GROUP_ID := some g, ACTION_TYPE := act }
          (some (Except.error e)) todayIso w = Phase.raised e [] ∧
      is_today_holiday none todayIso = (Except.ok none, [LogLevel.warning]) := by
  intro t g act e todayIso w
  exact ⟨rfl, rfl, rfl⟩

/-- Counterexample to C7 as stated: with `ACTION_TYPE` missing but the day a
holiday, the process exits with code 0 at the holiday check, before
`ACTION_TYPE` is ever read - not with code 1. -/
theorem missing_action_type_on_holiday_exits_zero :
    exitCodeOfPhase
        (runStartup { WHAPI_TOKEN := some ("t"), WHATSAPP_GROUP_ID := some ("g"),
                      ACTION_TYPE := none }
          (some (Except.ok [(("2026-01-05"), ("Holiday"))])) ("2026-01-05") 0)
      = some 0 := rfl

/-- C7 (amended): a missing `WHAPI_TOKEN` or `WHATSAPP_GROUP_ID` terminates
the process with exit code 1 after an error-level log on every run (they are
read at module load, before any other condition); a missing `ACTION_TYPE`
does so exactly on runs that reach the dispatch point, i.e. when the holiday
lookup returns no holiday (on a holiday the run exits 0 first, and a raising
holiday load propagates first). -/
theorem missing_env_var_exits_one :
    ∀ (env : RunEnv) (holidaysFile : Option (Except String (List (String × String))))
      (todayIso : String) (w : Nat),
      (env.WHAPI_TOKEN = none →
        runStartup env holidaysFile todayIso w = Phase.exited 1 [LogLevel.error]) ∧
      (∀ t, env.WHAPI_TOKEN = some t → env.WHATSAPP_GROUP_ID = none →
        runStartup env holidaysFile todayIso w = Phase.exited 1 [LogLevel.error]) ∧
      (∀ t g lgs, env.WHAPI_TOKEN = some t → env.WHATSAPP_GROUP_ID = some g →
        env.ACTION_TYPE = none →
        is_today_holiday holidaysFile todayIso = (Except.ok none, lgs) →
        runStartup env holidaysFile todayIso w
          = Phase.exited 1 (lgs ++ [LogLevel.notice, LogLevel.error])) := by
  intro env holidaysFile todayIso w
  refine ⟨?_, ?_, ?_⟩
  · intro h
    simp [runStartup, h]
  · intro t ht hg
    simp [runStartup, ht, hg]
  · intro t g lgs ht hg ha hhol
    simp [runStartup, ht, hg, ha, hhol]

/-- Witness for C7 (amended): with both module-level variables present, no
holiday file, and `ACTION_TYPE` missing, the run exits 1 and the last log
line is error-level. -/
theorem missing_env_var_exits_one_witness :
    runStartup { WHAPI_TOKEN := some ("t"), WHATSAPP_GROUP_ID := some ("g"),
                 ACTION_TYPE := none } none ("2026-01-05") 0
      = Phase.exited 1 ([LogLevel.warning] ++ [LogLevel.notice, LogLevel.error]) :=
  (missing_env_var_exits_one
      { WHAPI_TOKEN := some ("t"), WHATSAPP_GROUP_ID := some ("g"), ACTION_TYPE := none }
      none ("2026-01-05") 0).2.2 ("t") ("g") [LogLevel.warning] rfl rfl rfl rfl
